import Mathlib

/-!
Verification of the token-acquisition layer of the BIM-Dashboard-from-ACC
repository, a shallow embedding of `acc_issues_fetcher_simple.py` and
`modules/aps_connector.py`.

Modelling conventions:
* `time.time()` values and `expires_in` durations are integers (`Int`);
  the comparisons in the source are strict inequalities on reals, which
  the integer model preserves.
* A Python function that may raise is embedded as a `_body` function
  returning `Except`, and its surrounding `try/except` as a total
  function matching on that `Except`.
* Side effects that the claims talk about (network posts, binding the
  callback port, opening the browser, sleeping, progress prints) are
  collected in an explicit trace of type `List Effect`.
* Python truthiness of an optional string (`if cached:`) is `pyTruthy`:
  `None` and the empty string are falsy.
-/

/-- Observable side effects of the token-acquisition functions. -/
inductive Effect where
  | netPost
  | bindPort (port : Nat)
  | openBrowser
  | sleep
  | progress (elapsed : Nat)
  | timeoutMsg
deriving DecidableEq, Repr

/-- Python truthiness of an `Optional[str]` value: `None` and `""` are falsy. -/
def pyTruthy : Option String → Bool
  | none => false
  | some s => s ≠ ""

/-- The possible states of the `token_cache.json` file as seen by
`load_cached_token`: absent, unreadable (`open` raises), malformed
(`json.load` raises), or a parsed JSON record whose `access_token` and
`expires_at` keys may each be missing. -/
inductive CacheFile where
  | absent
  | unreadable
  | malformed
  | record (access_token : Option String) (expires_at : Option Int)
deriving DecidableEq, Repr

/-- Body of `load_cached_token` before its `except` clause
(`acc_issues_fetcher_simple.py` lines 65-80): if the file exists, parse
it and return `data.get('access_token')` when
`data.get('expires_at', 0) > time.time() + 300`, else fall through to
`None`; reading or parsing may raise. -/
def load_cached_token_body : CacheFile → Int → Except Unit (Option String)
  | .absent, _ => .ok none
  | .unreadable, _ => .error ()
  | .malformed, _ => .error ()
  | .record tok exp, now => .ok (if now + 300 < exp.getD 0 then tok else none)

/-- `load_cached_token`: the `try/except` wrapper returns `None` on any
exception. -/
def load_cached_token (file : CacheFile) (now : Int) : Option String :=
  match load_cached_token_body file now with
  | .ok v => v
  | .error _ => none

/-- Body of `save_token` before its `except` clause
(`acc_issues_fetcher_simple.py` lines 82-95): write a record with
`expires_at = time.time() + expires_in`; the write may raise. -/
def save_token_body (token : String) (expires_in now : Int) (writeOk : Bool) :
    Except Unit CacheFile :=
  if writeOk then .ok (.record (some token) (some (now + expires_in))) else .error ()

/-- `save_token`: on a write failure the exception is caught and the old
file state survives. -/
def save_token (old : CacheFile) (token : String) (expires_in now : Int)
    (writeOk : Bool) : CacheFile :=
  match save_token_body token expires_in now writeOk with
  | .ok f => f
  | .error _ => old

/-- Parsed JSON body of a token-endpoint response; either key may be
missing. -/
structure TokenBody where
  access_token : Option String
  expires_in : Option Int
deriving DecidableEq, Repr

/-- Outcome of an HTTP request: a response with a status code and parsed
body, or a network / timeout exception raised by `requests`. -/
inductive HttpResult where
  | response (status : Nat) (body : TokenBody)
  | netError
deriving DecidableEq, Repr

/-- The module-level in-memory cache used by `get_2_legged_token`:
`two_legged_token_cache` and `two_legged_token_expiry`. -/
structure TwoLeggedState where
  cache : Option String
  expiry : Int
deriving DecidableEq, Repr

/-- Body of `get_2_legged_token` (`acc_issues_fetcher_simple.py` lines
97-126): cache hit when `two_legged_token_cache and time.time() <
two_legged_token_expiry`; otherwise POST to the token endpoint; on a 200
store `result.get("access_token")` and expiry `time.time() +
result.get("expires_in", 3600) - 60`; a non-200 falls through to
`return None`; a network error raises. -/
def get_2_legged_token_body (st : TwoLeggedState) (now : Int) (http : HttpResult) :
    Except Unit (Option String × TwoLeggedState × List Effect) :=
  if pyTruthy st.cache = true ∧ now < st.expiry then
    .ok (st.cache, st, [])
  else
    match http with
    | .netError => .error ()
    | .response status body =>
      if status = 200 then
        .ok (body.access_token,
             ⟨body.access_token, now + body.expires_in.getD 3600 - 60⟩,
             [Effect.netPost])
      else
        .ok (none, st, [Effect.netPost])

/-- `get_2_legged_token`: the bare `except: pass` swallows any request
exception and the function returns `None` with the state unchanged. -/
def get_2_legged_token (st : TwoLeggedState) (now : Int) (http : HttpResult) :
    Option String × TwoLeggedState × List Effect :=
  match get_2_legged_token_body st now http with
  | .ok r => r
  | .error _ => (none, st, [Effect.netPost])

/-- The in-memory token cache of `APSConnector`
(`modules/aps_connector.py`): `self.token` and `self.token_expires_at`. -/
structure APSConnector where
  token : Option String
  token_expires_at : Int
deriving DecidableEq, Repr

/-- `APSConnector.get_token` (`modules/aps_connector.py` lines 23-51):
cache hit when `self.token and time.time() < self.token_expires_at`;
otherwise POST; `raise_for_status` raises on status >= 400; a missing
`access_token` key raises `KeyError`; the `except` clause logs and
re-raises. -/
def APSConnector.get_token (c : APSConnector) (now : Int) (http : HttpResult) :
    Except Unit (Option String) × APSConnector × List Effect :=
  if pyTruthy c.token = true ∧ now < c.token_expires_at then
    (.ok c.token, c, [])
  else
    match http with
    | .netError => (.error (), c, [Effect.netPost])
    | .response status body =>
      if 400 ≤ status then (.error (), c, [Effect.netPost])
      else
        match body.access_token with
        | none => (.error (), c, [Effect.netPost])
        | some t =>
          (.ok (some t), ⟨some t, now + body.expires_in.getD 3600 - 60⟩,
           [Effect.netPost])

/-- Shared session state of the OAuth callback listener: the module
globals `auth_code` and `server_running`. -/
structure SessionState where
  auth_code : Option String
  server_running : Bool
deriving DecidableEq, Repr

/-- `OAuthHandler.do_GET` (`acc_issues_fetcher_simple.py` lines 42-63; the
handler in `backup/acc_api_server.py` lines 149-177 is identical in this
respect). A request is represented by the first value of its `code` query
parameter, if present. When `code` is present the handler stores it,
writes a 200 response with the confirmation page, and clears
`server_running`; otherwise the handler returns without writing any
response. The second component lists the status codes written back. -/
def do_GET (st : SessionState) (code_param : Option String) :
    SessionState × List Nat :=
  match code_param with
  | some c => (⟨some c, false⟩, [200])
  | none => (st, [])

/-- The listener loop `while server_running: server.handle_request()`
run by the server thread: each request is handled by `do_GET` only while
`server_running` still holds; once it is cleared the remaining requests
are not handled and leave the session state unchanged. -/
def runSession (st : SessionState) : List (Option String) → SessionState
  | [] => st
  | r :: rs => if st.server_running then runSession (do_GET st r).1 rs else st

/-- The value of the global `auth_code` observed by the foreground wait
loop after `e` elapsed seconds, given that the listener delivers code `c`
at second `d` (or never, when `delivery = none`). -/
def authAt (delivery : Option (Nat × String)) (e : Nat) : Option String :=
  match delivery with
  | none => none
  | some (d, c) => if d ≤ e then some c else none

/-- The foreground wait loop of `get_3_legged_token` (lines 326-341):
`while auth_code is None and elapsed < timeout: time.sleep(1); elapsed += 1;
if elapsed % 15 == 0: print(...)`. The second argument is `elapsed`, the
third `timeout - elapsed`. Returns the trace of sleeps and progress
prints and the final `auth_code`. -/
def waitLoopAux (delivery : Option (Nat × String)) (elapsed : Nat) :
    Nat → List Effect × Option String
  | 0 => ([], authAt delivery elapsed)
  | r + 1 =>
    match authAt delivery elapsed with
    | some c => ([], some c)
    | none =>
      let e := elapsed + 1
      let rest := waitLoopAux delivery e r
      (Effect.sleep :: ((if e % 15 = 0 then [Effect.progress e] else []) ++ rest.1),
       rest.2)

/-- The wait loop started at `elapsed = 0` with `timeout = 120`. -/
def waitLoop (delivery : Option (Nat × String)) : List Effect × Option String :=
  waitLoopAux delivery 0 120

/-- Result of one call to `get_3_legged_token`: the Python return value
(`.error` models an uncaught exception, `.ok none` a `return None`), the
trace of side effects, the resulting state of the cache file, and the
final value of the `server_running` global. -/
structure Acq3Result where
  result : Except String (Option String)
  trace : List Effect
  finalCache : CacheFile
  serverRunningFinal : Bool
deriving Repr

/-- `get_3_legged_token` (`acc_issues_fetcher_simple.py` lines 271-374).
Inputs: `sr0` the prior value of `server_running`; `serverMode` the
`SERVER_MODE` flag; `file` the cache-file state; `now` the current time;
`bindOk` whether binding port 8080 succeeds; `delivery` when (and with
what code) the callback listener sets `auth_code`; `exchange` the
token-endpoint response to the code exchange; `writeOk` whether writing
the cache file succeeds. -/
def get_3_legged_token (sr0 serverMode : Bool) (file : CacheFile) (now : Int)
    (bindOk : Bool) (delivery : Option (Nat × String))
    (exchange : HttpResult) (writeOk : Bool) : Acq3Result :=
  let cached := load_cached_token file now
  if pyTruthy cached = true then
    ⟨.ok cached, [], file, sr0⟩
  else if serverMode then
    ⟨.error "No cached token available. Please run authentication first", [], file, sr0⟩
  else if bindOk = false then
    ⟨.ok none, [Effect.bindPort 8080], file, true⟩
  else
    let pre := [Effect.bindPort 8080, Effect.openBrowser]
    let wait := waitLoop delivery
    match wait.2 with
    | none =>
      ⟨.ok none, pre ++ wait.1 ++ [Effect.timeoutMsg], file, false⟩
    | some _ =>
      match exchange with
      | .netError =>
        ⟨.error "requests exception during code exchange",
         pre ++ wait.1 ++ [Effect.netPost], file, false⟩
      | .response status body =>
        if status = 200 then
          match body.access_token with
          | none =>
            ⟨.error "KeyError: access_token",
             pre ++ wait.1 ++ [Effect.netPost], file, false⟩
          | some tok =>
            ⟨.ok (some tok), pre ++ wait.1 ++ [Effect.netPost],
             save_token file tok (body.expires_in.getD 3600) now writeOk, false⟩
        else
          ⟨.ok none, pre ++ wait.1 ++ [Effect.netPost], file, false⟩

/-! ### Helper lemmas -/

/-- Once `server_running` is cleared, the listener loop handles no further
requests and the session state is unchanged. -/
theorem runSession_stopped (st : SessionState) (rs : List (Option String))
    (h : st.server_running = false) : runSession st rs = st := by
  cases rs <;> simp [runSession, h]

/-! ### Claims -/

/-- Claim C1: a cached or persisted token is usable iff `now < expires_at - margin`:
the persisted record is returned iff the stored `expires_at` is strictly greater
than `now + 300` (so `expires_at = now + 299` is rejected and `now + 301`
accepted), and the in-memory 2-legged cache stores its expiry as
`now + expires_in - 60` on a fresh 200 fetch and compares `now < expiry`
strictly on later calls. -/
theorem claim_C1 (t : String) (e now : Int) :
    (load_cached_token (.record (some t) (some e)) now
        = if now + 300 < e then some t else none)
    ∧ load_cached_token (.record (some t) (some (now + 299))) now = none
    ∧ load_cached_token (.record (some t) (some (now + 301))) now = some t
    ∧ (∀ (n : Int) (tok : String),
         get_2_legged_token ⟨none, 0⟩ now (.response 200 ⟨some tok, some n⟩)
           = (some tok, ⟨some tok, now + n - 60⟩, [Effect.netPost]))
    ∧ (t ≠ "" → now < e → ∀ http : HttpResult,
         get_2_legged_token ⟨some t, e⟩ now http = (some t, ⟨some t, e⟩, []))
    ∧ (e ≤ now → (get_2_legged_token ⟨some t, e⟩ now .netError).1 = none) := by
  refine ⟨by simp [load_cached_token, load_cached_token_body], ?_, ?_, ?_, ?_, ?_⟩
  · simp [load_cached_token, load_cached_token_body]
  · simp [load_cached_token, load_cached_token_body]
  · intro n tok
    simp [get_2_legged_token, get_2_legged_token_body, pyTruthy]
  · intro ht hlt http
    simp [get_2_legged_token, get_2_legged_token_body, pyTruthy, ht, hlt]
  · intro hle
    have hnot : ¬ now < e := by omega
    simp [get_2_legged_token, get_2_legged_token_body, pyTruthy, hnot]

/-- Witness for C1 at `t = "tok"`, `e = 100`, `now = 50`. -/
theorem claim_C1_witness :
    load_cached_token (.record (some "tok") (some 100)) 50 = none
    ∧ get_2_legged_token ⟨some "tok", 100⟩ 50 .netError = (some "tok", ⟨some "tok", 100⟩, [])
    ∧ (get_2_legged_token ⟨some "tok", 100⟩ 100 .netError).1 = none := by
  refine ⟨?_, ?_, ?_⟩
  · have h := (claim_C1 "tok" 100 50).1
    simpa using h
  · exact (claim_C1 "tok" 100 50).2.2.2.2.1 (by decide) (by decide) .netError
  · exact (claim_C1 "tok" 100 100).2.2.2.2.2 (by decide)

/-- Claim C2: in one authorization session started with `auth_code = None`
and `server_running = True`, the listener stores exactly the first delivered
code; every request after it (including a second code-bearing redirect) is
not handled by the loop and changes nothing. -/
theorem claim_C2 (pre : List (Option String)) (c : String)
    (rest : List (Option String)) (h : ∀ r ∈ pre, r = none) :
    runSession ⟨none, true⟩ (pre ++ some c :: rest) = ⟨some c, false⟩ := by
  induction pre with
  | nil =>
    simp only [List.nil_append, runSession, do_GET]
    exact runSession_stopped _ rest rfl
  | cons p pre ih =>
    have hp : p = none := h p (List.mem_cons_self p pre)
    subst hp
    simp only [List.cons_append, runSession, do_GET, if_true]
    exact ih (fun r hr => h r (List.mem_cons_of_mem _ hr))

/-- Witness for C2: a no-code request, then code "a", then a second
redirect carrying code "b"; the stored code is "a". -/
theorem claim_C2_witness :
    runSession ⟨none, true⟩ ([none] ++ some "a" :: [some "b"]) = ⟨some "a", false⟩ :=
  claim_C2 [none] "a" [some "b"] (by simp)

/-- Claim C3 counterexample: with `now = 0` and a 200 exchange carrying
`expires_in = 3600`, the persisted record has `expires_at = 3600 = now + 3600`,
not `now + 3540`: no safety margin is subtracted at write time. -/
theorem claim_C3_counterexample :
    (get_3_legged_token true false .absent 0 true (some (0, "c"))
        (.response 200 ⟨some "tok", some 3600⟩) true).finalCache
      = .record (some "tok") (some 3600)
    ∧ (3600 : Int) ≠ 0 + 3540 := by
  exact ⟨by decide, by decide⟩

/-- Claim C3 as amended: after a successful exchange whose 200 response
carries `expires_in`, `get_3_legged_token` persists a record with
`expires_at = now + expires_in` (no margin subtracted at write time; the
300-second margin is applied at read time by `load_cached_token`) and
returns the exchanged access token. -/
theorem claim_C3_amended (sr0 : Bool) (file : CacheFile) (now n : Int)
    (c tok : String) (h : pyTruthy (load_cached_token file now) = false) :
    (get_3_legged_token sr0 false file now true (some (0, c))
        (.response 200 ⟨some tok, some n⟩) true).result = .ok (some tok)
    ∧ (get_3_legged_token sr0 false file now true (some (0, c))
        (.response 200 ⟨some tok, some n⟩) true).finalCache
      = .record (some tok) (some (now + n)) := by
  constructor <;>
    simp [get_3_legged_token, h, waitLoop, waitLoopAux, authAt,
      save_token, save_token_body]

/-- Witness for the amended C3 at `now = 0`, `expires_in = 3600`. -/
theorem claim_C3_amended_witness :
    (get_3_legged_token true false .absent 0 true (some (0, "c"))
        (.response 200 ⟨some "tok", some 3600⟩) true).result = .ok (some "tok")
    ∧ (get_3_legged_token true false .absent 0 true (some (0, "c"))
        (.response 200 ⟨some "tok", some 3600⟩) true).finalCache
      = .record (some "tok") (some (0 + 3600)) :=
  claim_C3_amended true .absent 0 3600 "c" "tok" (by decide)

/-- Claim C4 counterexample: a request whose query string has no `code`
parameter is handled without any response being written, so the handler
does not always write back a 200 page. -/
theorem claim_C4_counterexample :
    ¬ (200 ∈ (do_GET ⟨none, true⟩ none).2) := by decide

/-- Claim C4 as amended: the handler writes an HTTP 200 response with the
confirmation page if and only if the query string contains a `code`
parameter; a request without `code` is handled without writing any
response. -/
theorem claim_C4_amended (st : SessionState) (p : Option String) :
    200 ∈ (do_GET st p).2 ↔ p.isSome := by
  cases p <;> simp [do_GET]

/-- Claim C5: with `SERVER_MODE` set and no valid persisted token,
`get_3_legged_token` raises immediately, with an empty effect trace: in
particular it neither attempts to bind the port-8080 listener nor opens
a browser. -/
theorem claim_C5 (sr0 : Bool) (file : CacheFile) (now : Int) (bindOk : Bool)
    (delivery : Option (Nat × String)) (exchange : HttpResult) (writeOk : Bool)
    (h : load_cached_token file now = none) :
    (get_3_legged_token sr0 true file now bindOk delivery exchange writeOk).result
        = .error "No cached token available. Please run authentication first"
    ∧ (get_3_legged_token sr0 true file now bindOk delivery exchange writeOk).trace = []
    ∧ Effect.bindPort 8080
        ∉ (get_3_legged_token sr0 true file now bindOk delivery exchange writeOk).trace
    ∧ Effect.openBrowser
        ∉ (get_3_legged_token sr0 true file now bindOk delivery exchange writeOk).trace := by
  refine ⟨?_, ?_, ?_, ?_⟩ <;> simp [get_3_legged_token, h, pyTruthy]

/-- Witness for C5 with an absent cache file. -/
theorem claim_C5_witness :
    (get_3_legged_token true true .absent 0 true none .netError true).result
        = .error "No cached token available. Please run authentication first"
    ∧ (get_3_legged_token true true .absent 0 true none .netError true).trace = [] :=
  ⟨(claim_C5 true .absent 0 true none .netError true rfl).1,
   (claim_C5 true .absent 0 true none .netError true rfl).2.1⟩

/-- Claim C6: whenever a valid cached token exists, the token call returns
it with an empty effect trace (zero network requests): for
`get_3_legged_token` (disk cache), `get_2_legged_token` (in-memory
module cache), and `APSConnector.get_token` (in-memory attribute cache). -/
theorem claim_C6 :
    (∀ (sr0 serverMode : Bool) (file : CacheFile) (now : Int) (bindOk : Bool)
       (delivery : Option (Nat × String)) (exchange : HttpResult) (writeOk : Bool),
       pyTruthy (load_cached_token file now) = true →
       (get_3_legged_token sr0 serverMode file now bindOk delivery exchange writeOk).result
           = .ok (load_cached_token file now)
       ∧ (get_3_legged_token sr0 serverMode file now bindOk delivery exchange writeOk).trace
           = [])
    ∧ (∀ (t : String) (e now : Int) (http : HttpResult), t ≠ "" → now < e →
         get_2_legged_token ⟨some t, e⟩ now http = (some t, ⟨some t, e⟩, []))
    ∧ (∀ (t : String) (e now : Int) (http : HttpResult), t ≠ "" → now < e →
         APSConnector.get_token ⟨some t, e⟩ now http = (.ok (some t), ⟨some t, e⟩, [])) := by
  refine ⟨?_, ?_, ?_⟩
  · intro sr0 serverMode file now bindOk delivery exchange writeOk h
    exact ⟨by simp [get_3_legged_token, h], by simp [get_3_legged_token, h]⟩
  · intro t e now http ht hlt
    simp [get_2_legged_token, get_2_legged_token_body, pyTruthy, ht, hlt]
  · intro t e now http ht hlt
    simp [APSConnector.get_token, pyTruthy, ht, hlt]

/-- Witness for C6 with a fresh token cached in all three caches. -/
theorem claim_C6_witness :
    ((get_3_legged_token true false (.record (some "tok") (some 1000)) 0 true none
        .netError true).result = .ok (some "tok")
      ∧ (get_3_legged_token true false (.record (some "tok") (some 1000)) 0 true none
          .netError true).trace = [])
    ∧ get_2_legged_token ⟨some "tok", 1000⟩ 0 .netError = (some "tok", ⟨some "tok", 1000⟩, [])
    ∧ APSConnector.get_token ⟨some "tok", 1000⟩ 0 .netError
        = (.ok (some "tok"), ⟨some "tok", 1000⟩, []) := by
  refine ⟨?_, ?_, ?_⟩
  · have h := claim_C6.1 true false (.record (some "tok") (some 1000)) 0 true none
      .netError true (by decide)
    exact ⟨by rw [h.1]; rfl, h.2⟩
  · exact claim_C6.2.1 "tok" 1000 0 .netError (by decide) (by decide)
  · exact claim_C6.2.2 "tok" 1000 0 .netError (by decide) (by decide)

/-- The progress prints among the effects of the wait loop. -/
def isProgress : Effect → Bool
  | .progress _ => true
  | _ => false

/-- Claim C7: in interactive mode with no code ever delivered, the
foreground wait loop performs exactly 120 one-second polls, printing a
progress message exactly at every 15th poll (15, 30, ..., 120), after
which `get_3_legged_token` clears the listener-running flag, reports the
authorization timeout, and returns an absent token. -/
theorem claim_C7 (sr0 : Bool) (now : Int) (exchange : HttpResult) (writeOk : Bool) :
    (get_3_legged_token sr0 false .absent now true none exchange writeOk).result = .ok none
    ∧ (get_3_legged_token sr0 false .absent now true none exchange writeOk).serverRunningFinal
        = false
    ∧ (get_3_legged_token sr0 false .absent now true none exchange writeOk).trace
        = [Effect.bindPort 8080, Effect.openBrowser] ++ (waitLoop none).1
            ++ [Effect.timeoutMsg]
    ∧ (waitLoop none).1.count Effect.sleep = 120
    ∧ (waitLoop none).1.filter isProgress
        = [15, 30, 45, 60, 75, 90, 105, 120].map Effect.progress := by
  exact ⟨rfl, rfl, rfl, by decide, by decide⟩

/-- Claim C8: every degenerate state of the token cache file (absent,
unreadable, malformed JSON, missing fields, or expired within the
300-second margin) makes `load_cached_token` return `None` without
raising, and with `SERVER_MODE` off `get_3_legged_token` then falls
through to re-acquisition (it attempts to bind the callback listener). -/
theorem claim_C8 :
    (∀ now : Int, load_cached_token .absent now = none)
    ∧ (∀ now : Int, load_cached_token .unreadable now = none)
    ∧ (∀ now : Int, load_cached_token .malformed now = none)
    ∧ (∀ (tok : Option String) (exp : Option Int) (now : Int),
         exp.getD 0 ≤ now + 300 → load_cached_token (.record tok exp) now = none)
    ∧ (∀ (exp : Option Int) (now : Int), load_cached_token (.record none exp) now = none)
    ∧ (∀ (sr0 : Bool) (file : CacheFile) (now : Int) (bindOk : Bool)
         (delivery : Option (Nat × String)) (exchange : HttpResult) (writeOk : Bool),
         load_cached_token file now = none →
         Effect.bindPort 8080
           ∈ (get_3_legged_token sr0 false file now bindOk delivery exchange writeOk).trace) := by
  refine ⟨fun now => rfl, fun now => rfl, fun now => rfl, ?_, ?_, ?_⟩
  · intro tok exp now h
    simp only [load_cached_token, load_cached_token_body]
    rw [if_neg (by omega)]
  · intro exp now
    simp [load_cached_token, load_cached_token_body]
  · intro sr0 file now bindOk delivery exchange writeOk h
    have hp : pyTruthy (load_cached_token file now) = false := by rw [h]; rfl
    cases bindOk
    · simp [get_3_legged_token, hp]
    · rcases hw : (waitLoop delivery).2 with _ | c
      · simp [get_3_legged_token, hp, hw]
      · rcases exchange with ⟨status, body⟩ | _
        · by_cases hs : status = 200
          · rcases ht : body.access_token with _ | tok
            · simp [get_3_legged_token, hp, hw, hs, ht]
            · simp [get_3_legged_token, hp, hw, hs, ht]
          · simp [get_3_legged_token, hp, hw, hs]
        · simp [get_3_legged_token, hp, hw]

/-- Witness for C8: an expired record is a cache miss, and with an absent
cache file the interactive path attempts to bind the listener. -/
theorem claim_C8_witness :
    load_cached_token (.record (some "tok") (some 100)) 0 = none
    ∧ Effect.bindPort 8080
        ∈ (get_3_legged_token true false .absent 0 true none .netError true).trace := by
  refine ⟨?_, ?_⟩
  · exact claim_C8.2.2.2.1 (some "tok") (some 100) 0 (by decide)
  · exact claim_C8.2.2.2.2.2 true .absent 0 true none .netError true rfl

/-- Claim C9: when the in-memory cache misses, `get_2_legged_token`
returns `None` on a network or timeout exception (swallowed by the bare
`except`) and on every non-200 response, leaving the cache unchanged; on
a 200 response it returns the parsed `access_token` field. -/
theorem claim_C9 (st : TwoLeggedState) (now : Int)
    (hmiss : ¬ (pyTruthy st.cache = true ∧ now < st.expiry)) :
    get_2_legged_token st now .netError = (none, st, [Effect.netPost])
    ∧ (∀ (status : Nat) (body : TokenBody), status ≠ 200 →
         get_2_legged_token st now (.response status body)
           = (none, st, [Effect.netPost]))
    ∧ (∀ body : TokenBody,
         (get_2_legged_token st now (.response 200 body)).1 = body.access_token) := by
  refine ⟨?_, ?_, ?_⟩
  · simp [get_2_legged_token, get_2_legged_token_body, hmiss]
  · intro status body hs
    simp [get_2_legged_token, get_2_legged_token_body, hmiss, hs]
  · intro body
    simp [get_2_legged_token, get_2_legged_token_body, hmiss]

/-- Witness for C9 with an empty cache at `now = 0`. -/
theorem claim_C9_witness :
    get_2_legged_token ⟨none, 0⟩ 0 .netError = (none, ⟨none, 0⟩, [Effect.netPost])
    ∧ get_2_legged_token ⟨none, 0⟩ 0 (.response 500 ⟨none, none⟩)
        = (none, ⟨none, 0⟩, [Effect.netPost])
    ∧ (get_2_legged_token ⟨none, 0⟩ 0 (.response 200 ⟨some "tok", some 3600⟩)).1
        = some "tok" := by
  refine ⟨?_, ?_, ?_⟩
  · exact (claim_C9 ⟨none, 0⟩ 0 (by simp [pyTruthy])).1
  · exact (claim_C9 ⟨none, 0⟩ 0 (by simp [pyTruthy])).2.1 500 ⟨none, none⟩ (by decide)
  · exact (claim_C9 ⟨none, 0⟩ 0 (by simp [pyTruthy])).2.2 ⟨some "tok", some 3600⟩

/-- Claim C10: if the code exchange succeeds with a 200 but writing the
cache file raises, the exception is swallowed inside `save_token` (the
old file state survives and no exception escapes) and
`get_3_legged_token` still returns the freshly exchanged token. -/
theorem claim_C10 (sr0 : Bool) (file : CacheFile) (now n : Int) (c tok : String)
    (h : pyTruthy (load_cached_token file now) = false) :
    save_token_body tok n now false = .error ()
    ∧ save_token file tok n now false = file
    ∧ (get_3_legged_token sr0 false file now true (some (0, c))
        (.response 200 ⟨some tok, some n⟩) false).result = .ok (some tok)
    ∧ (get_3_legged_token sr0 false file now true (some (0, c))
        (.response 200 ⟨some tok, some n⟩) false).finalCache = file := by
  refine ⟨rfl, rfl, ?_, ?_⟩ <;>
    simp [get_3_legged_token, h, waitLoop, waitLoopAux, authAt,
      save_token, save_token_body]

/-- Witness for C10 with an absent cache file and a failing write. -/
theorem claim_C10_witness :
    (get_3_legged_token true false .absent 0 true (some (0, "c"))
        (.response 200 ⟨some "tok", some 3600⟩) false).result = .ok (some "tok")
    ∧ (get_3_legged_token true false .absent 0 true (some (0, "c"))
        (.response 200 ⟨some "tok", some 3600⟩) false).finalCache = .absent :=
  ⟨(claim_C10 true .absent 0 3600 "c" "tok" (by decide)).2.2.1,
   (claim_C10 true .absent 0 3600 "c" "tok" (by decide)).2.2.2⟩
